import Mathlib

/-!
Verification development for the bytedump Python implementation
(src/python/bytedump-python.py).  The definitions below are a shallow
embedding of the program's selector parser (`ByteDump.byte_selector`),
its attribute tables (`AttributeTables`), its mapping-array builders
(`ByteDump.initialize4_maps`), its field/layout initialization
(`ByteDump.initialize1_fields` .. `initialize3_layout`) and its record
renderers (`ByteDump.dump_all`, `ByteDump.dump_all_single_record`,
`ByteDump.dump_byte_field`, `ByteDump.dump_text_field`).

Conventions used throughout:
  * Python strings are Lean `String`s; the parser works on `List Char`.
  * Python ints are `Nat` (all the quantities involved are nonnegative).
  * A call of `ByteDump.user_error` / `ByteDump.internal_error` (both exit
    the process via `Terminator.error_handler` with `+exit`) and an uncaught
    Python `IndexError` are modelled as the `Except.error` cases of `SelErr`.
  * An attribute table (a Python list of 256 `str | None` slots) is modelled
    as a total function `Nat → Option String`; the translation of
    `output[index] = attribute` checks `index < 256` and raises
    `SelErr.indexErr` otherwise, exactly where Python's list assignment
    would raise `IndexError`.
  * Field names ending in `prefix` were renamed to `pfx` (`ADDR_pfx` for
    the Python `ADDR_prefix` and so on).
  * The regular expressions of the source are all anchored and
    backtracking-free on their inputs (each maximal digit / name run is
    followed by a character class that cannot consume a digit / name
    character), so they are translated as deterministic maximal-munch
    scanners.  Selector strings are modelled with `.` matching any
    character and `$` matching only the end of the string; this agrees
    with Python's `re` on every newline-free selector.
-/

namespace ByteDump

/-- Termination of the Python process from inside the engine: `user_error`
(tag `Error`), `internal_error` (tag `InternalError`), or an uncaught
`IndexError` escaping from a list assignment. -/
inductive SelErr where
  | userErr (msg : String)
  | internalErr (msg : String)
  | indexErr
  deriving DecidableEq

/-- `delimit` helper of the source: wraps its argument in double quotes. -/
def delimit (arg : String) : String := "\"" ++ arg ++ "\""

/-- The `[ \t]` character class used by every whitespace regex of
`byte_selector`. -/
def isBlankChar (c : Char) : Bool := c = ' ' || c = '\t'

/-- `[0-9]`. -/
def isDecDigitChar (c : Char) : Bool := '0' ≤ c && c ≤ '9'

/-- `[1-9]`. -/
def isNonzeroDecDigitChar (c : Char) : Bool := '1' ≤ c && c ≤ '9'

/-- `[0-7]`. -/
def isOctDigitChar (c : Char) : Bool := '0' ≤ c && c ≤ '7'

/-- `[0-9a-fA-F]`. -/
def isHexDigitChar (c : Char) : Bool :=
  isDecDigitChar c || ('a' ≤ c && c ≤ 'f') || ('A' ≤ c && c ≤ 'F')

/-- `[a-zA-Z0-9]` (the character-class-name regex). -/
def isAlnumChar (c : Char) : Bool :=
  isDecDigitChar c || ('a' ≤ c && c ≤ 'z') || ('A' ≤ c && c ≤ 'Z')

/-- Numeric value of one digit character (as `int(…, base)` assigns it). -/
def digitVal (c : Char) : Nat :=
  if isDecDigitChar c then c.toNat - '0'.toNat
  else if 'a' ≤ c && c ≤ 'f' then c.toNat - 'a'.toNat + 10
  else if 'A' ≤ c && c ≤ 'F' then c.toNat - 'A'.toNat + 10
  else 0

/-- Python `int(String.mk l, base)` for a nonempty list of valid digits. -/
def digitsToNat (base : Nat) (l : List Char) : Nat :=
  l.foldl (fun acc c => acc * base + digitVal c) 0

/-- `AttributeTables.TABLE_SIZE`: one attribute slot for each byte. -/
def TABLE_SIZE : Nat := 256

/-- One attribute table: Python's fixed list of 256 `str | None` slots,
modelled as a total function (only indices below `TABLE_SIZE` are ever
written, and reads outside it never happen in the engine). -/
abbrev AttrTable := Nat → Option String

/-- `AttributeTables.get_table` allocates `[None] * TABLE_SIZE`. -/
def freshTable : AttrTable := fun _ => none

/-- The Python list assignment `table[i] = a` (for a valid index). -/
def tableSet (t : AttrTable) (i : Nat) (a : String) : AttrTable :=
  fun j => if j = i then some a else t j

/-- Maximal-munch run: the regex piece `F R*` where `F`/`R` are character
classes; returns the (nonempty) run and the rest of the input. -/
def matchRun (firstOk restOk : Char → Bool) : List Char → Option (List Char × List Char)
  | [] => none
  | c :: cs =>
    if firstOk c then some (c :: cs.takeWhile restOk, cs.dropWhile restOk)
    else none

/-- The trailing group `([ \t]+|$)` that closes every integer and class
token; on success the blanks are consumed (they are part of group 0,
which the source drops from `tokens`). -/
def matchWsEnd : List Char → Option (List Char)
  | [] => some []
  | c :: cs =>
    if isBlankChar c then some (cs.dropWhile isBlankChar) else none

/-- One integer-or-range token under a set base:
`^((D+)([-](D+))?)([ \t]+|$)` with `D` the digit class of the base.
Returns `(first, last, rest-after-group-0)`; `last = first` when the
range part is absent (`cached_groups[4] is None`). -/
def matchIntPair (firstOk restOk : Char → Bool) (base : Nat) (s : List Char) :
    Option (Nat × Nat × List Char) :=
  match matchRun firstOk restOk s with
  | none => none
  | some (d1, r1) =>
    match r1 with
    | '-' :: r2 =>
      match matchRun firstOk restOk r2 with
      | none => none
      | some (d2, r3) =>
        match matchWsEnd r3 with
        | none => none
        | some rem => some (digitsToNat base d1, digitsToNat base d2, rem)
    | _ =>
      match matchWsEnd r1 with
      | none => none
      | some rem => some (digitsToNat base d1, digitsToNat base d1, rem)

/-- The literal `0x` / `0X` of the C-style hex regexes. -/
def matchHexMark : List Char → Option (List Char)
  | '0' :: 'x' :: r => some r
  | '0' :: 'X' :: r => some r
  | _ => none

/-- C-style hex token (no base set):
`^(0[xX]([0-9a-fA-F]+)([-]0[xX]([0-9a-fA-F]+))?)([ \t]+|$)`. -/
def matchCHex (s : List Char) : Option (Nat × Nat × List Char) :=
  match matchHexMark s with
  | none => none
  | some r0 =>
    match matchRun isHexDigitChar isHexDigitChar r0 with
    | none => none
    | some (d1, r1) =>
      match r1 with
      | '-' :: r2 =>
        match matchHexMark r2 with
        | none => none
        | some r3 =>
          match matchRun isHexDigitChar isHexDigitChar r3 with
          | none => none
          | some (d2, r4) =>
            match matchWsEnd r4 with
            | none => none
            | some rem => some (digitsToNat 16 d1, digitsToNat 16 d2, rem)
      | _ =>
        match matchWsEnd r1 with
        | none => none
        | some rem => some (digitsToNat 16 d1, digitsToNat 16 d1, rem)

/-- C-style octal token (no base set):
`^((0[0-7]*)([-](0[0-7]*))?)([ \t]+|$)` — a leading `0` followed by
octal digits, on both ends of a range. -/
def matchCOct (s : List Char) : Option (Nat × Nat × List Char) :=
  matchIntPair (fun c => c = '0') isOctDigitChar 8 s

/-- C-style decimal token (no base set):
`^(([1-9][0-9]*)([-]([1-9][0-9]*))?)([ \t]+|$)`. -/
def matchCDec (s : List Char) : Option (Nat × Nat × List Char) :=
  matchIntPair isNonzeroDecDigitChar isDecDigitChar 10 s

/-- The character-class token regex `^\[:([a-zA-Z0-9]+):\]([ \t]+|$)`,
returning the class name and the rest after group 0. -/
def matchClassToken : List Char → Option (String × List Char)
  | '[' :: ':' :: r =>
    match matchRun isAlnumChar isAlnumChar r with
    | none => none
    | some (nm, r1) =>
      match r1 with
      | ':' :: ']' :: r2 =>
        match matchWsEnd r2 with
        | none => none
        | some rem => some (String.mk nm, rem)
      | _ => none
  | _ => none

/-- The raw-string opening regex `^(r([#]*)("|'))`: returns the number of
hashes, the quote character and the input after the whole opening. -/
def matchRawOpen : List Char → Option (Nat × Char × List Char)
  | 'r' :: r =>
    match r.dropWhile (· = '#') with
    | q :: rest =>
      if q = '"' || q = '\'' then
        some ((r.takeWhile (· = '#')).length, q, rest)
      else none
    | [] => none
  | _ => none

/-- First occurrence of `pat` in the input (`re.search(suffix + "(.*)")`):
`some (before, after)` splits the input around that first occurrence. -/
def splitFirst (pat : List Char) : List Char → Option (List Char × List Char)
  | [] => if pat.isEmpty then some ([], []) else none
  | c :: cs =>
    if pat.isPrefixOf (c :: cs) then some ([], (c :: cs).drop pat.length)
    else
      match splitFirst pat cs with
      | some (before, after) => some (c :: before, after)
      | none => none

/-- Optional base prefix of a whole selector:
`^[ \t]*(0[xX]?)?[(](.*)[)][ \t]*$`.  `base` is 16 for `0x`/`0X`, 8 for
`0`, 10 for bare parentheses (`prefix is None`).  `.*` does not cross a
newline and `$` also matches just before one trailing newline, so the
match requires the rest of the selector to be newline-free. -/
def matchBase (tokens : List Char) : Option (Nat × List Char) :=
  let t1 := if tokens.getLast? = some '\n' then tokens.dropLast else tokens
  if t1.contains '\n' then none
  else
    let core :=
      match t1.dropWhile isBlankChar with
      | '0' :: 'x' :: '(' :: rest => some (16, rest)
      | '0' :: 'X' :: '(' :: rest => some (16, rest)
      | '0' :: '(' :: rest => some (8, rest)
      | '(' :: rest => some (10, rest)
      | _ => none
    match core with
    | none => none
    | some (b, rest) =>
      let rev := rest.reverse.dropWhile isBlankChar
      match rev with
      | ')' :: inner => some (b, inner.reverse)
      | _ => none

/-- Expansion table of the `match name:` statement in `byte_selector`:
the recognized character classes and the hex-range selector each one
recursively feeds back into `byte_selector`. -/
def classSelector (name : String) : Option String :=
  match name with
  | "alnum" => some "0x(30-39 41-5A 61-7A AA B5 BA C0-D6 D8-F6 F8-FF)"
  | "alpha" => some "0x(41-5A 61-7A AA B5 BA C0-D6 D8-F6 F8-FF)"
  | "blank" => some "0x(09 20 A0)"
  | "cntrl" => some "0x(00-1F 7F-9F)"
  | "digit" => some "0x(30-39)"
  | "graph" => some "0x(21-7E A1-FF)"
  | "lower" => some "0x(61-7A AA B5 BA DF-F6 F8-FF)"
  | "print" => some "0x(20-7E A0-FF)"
  | "punct" => some "0x(21-23 25-2A 2C-2F 3A-3B 3F-40 5B-5D 5F 7B 7D A1 A7 AB B6-B7 BB BF)"
  | "space" => some "0x(09-0D 20 85 A0)"
  | "upper" => some "0x(41-5A C0-D6 D8-DE)"
  | "xdigit" => some "0x(30-39 41-46 61-66)"
  | "ascii" => some "0x(00-7F)"
  | "latin1" => some "0x(80-FF)"
  | "all" => some "0x(00-FF)"
  | _ => none

/-- Two-digit uppercase hex (`f"{code:02X}"` for a code below 256). -/
def hex2Upper (n : Nat) : String :=
  String.mk [(Nat.digitChar (n / 16)).toUpper, (Nat.digitChar (n % 16)).toUpper]

/-- The distinct code points of a raw-string body that are below 256, in
increasing order — Python marks slot `code` of a 256-slot list for every
character of the body and then joins the marked slots in index order. -/
def rawCodes (body : List Char) : List Nat :=
  (List.range 256).filter (fun code => body.any (fun ch => ch.toNat = code))

/-- The synthesized hex-range selector `"0x(" + " ".join(chars) + ")"`
that a raw string re-feeds into `byte_selector`. -/
def rawSelector (codes : List Nat) : String :=
  "0x(" ++ String.intercalate " " (codes.map hex2Upper) ++ ")"

/-- The integer-token branches of `byte_selector` (lines 746–784 of the
source): under a set base the one regex of that base must match, else the
three C-style regexes are tried in order (hex, octal, decimal); each
failure is the corresponding `user_error`. -/
def matchIntToken (base : Nat) (toks : List Char) : Except SelErr (Nat × Nat × List Char) :=
  if base > 0 then
    if base = 16 then
      match matchIntPair isHexDigitChar isHexDigitChar 16 toks with
      | some r => .ok r
      | none => .error (.userErr ("problem extracting a hex integer from " ++ delimit (String.mk toks)))
    else if base = 8 then
      match matchIntPair isOctDigitChar isOctDigitChar 8 toks with
      | some r => .ok r
      | none => .error (.userErr ("problem extracting an octal integer from " ++ delimit (String.mk toks)))
    else if base = 10 then
      match matchCDec toks with
      | some r => .ok r
      | none => .error (.userErr ("problem extracting a decimal integer from " ++ delimit (String.mk toks)))
    else .error (.internalErr ("base " ++ delimit (toString base) ++ " has not been implemented"))
  else
    match matchCHex toks with
    | some r => .ok r
    | none =>
      match matchCOct toks with
      | some r => .ok r
      | none =>
        match matchCDec toks with
        | some r => .ok r
        | none => .error (.userErr ("problem extracting an integer from " ++ delimit (String.mk toks)))

/-- The write loop `for index in range(first, last + 1): output[index] = attribute`,
generic in the write action `w`; a write at an index that is not below
`TABLE_SIZE` is Python's `IndexError` on the 256-entry list. -/
def applyRangeGen {σ : Type} (w : σ → Nat → σ) : List Nat → σ → Except SelErr σ
  | [], s => .ok s
  | i :: is, s =>
    if i < TABLE_SIZE then applyRangeGen w is (w s i) else .error .indexErr

/-- Lines 785–789 of the source: the guarded, clamped interval write of one
integer token.  The clamp is `if last > 256: last = 256` — the value 256
itself, not 255 — exactly as written there. -/
def writeInterval {σ : Type} (w : σ → Nat → σ) (first lastv : Nat) (s : σ) :
    Except SelErr σ :=
  if first ≤ lastv ∧ first < 256 then
    let lastc := if lastv > 256 then 256 else lastv
    applyRangeGen w (List.range' first (lastc + 1 - first)) s
  else .ok s

mutual

/-- `ByteDump.byte_selector`, generic in the write action `w` that models
`output[index] = attribute` (instantiated below by `byte_selector` for the
attribute table and by `byteSelIdx` for the list of written indices).
Entry point: checks the optional base prefix, then runs the token loop.
`fuel` bounds the recursion depth (character classes and raw strings
re-enter the parser); every run of the actual program corresponds to a
large enough fuel. -/
def byteSelGen {σ : Type} (w : σ → Nat → σ) : Nat → List Char → σ → Except SelErr σ
  | 0, _, _ => .error (.internalErr "recursion fuel exhausted")
  | fuel + 1, tokens, s =>
    match matchBase tokens with
    | some (b, rest) => byteSelLoop w fuel b rest s
    | none => byteSelLoop w fuel 0 tokens s

/-- The `while manager.matched(tokens, "^[ \t]*([^ \t].*)")` loop of
`byte_selector` with its three token branches (integer/range, character
class, raw string) and its final `else: user_error`. -/
def byteSelLoop {σ : Type} (w : σ → Nat → σ) : Nat → Nat → List Char → σ → Except SelErr σ
  | 0, _, _, _ => .error (.internalErr "recursion fuel exhausted")
  | fuel + 1, base, tokens, s =>
    match tokens.dropWhile isBlankChar with
    | [] => .ok s
    | c :: cs =>
      -- group 1 of `^[ \t]*([^ \t].*)` stops at a newline; the source
      -- assigns it back to `tokens`, dropping anything past that newline
      let toks := c :: cs.takeWhile (· ≠ '\n')
      if isHexDigitChar c then
        -- dispatch `^(0[xX]?)?[0-9a-fA-F]` holds iff the first character
        -- is a hex digit (the optional `0x` backtracks to empty)
        match matchIntToken base toks with
        | .error e => .error e
        | .ok (first, lastv, rem) =>
          match writeInterval w first lastv s with
          | .error e => .error e
          | .ok s1 => byteSelLoop w fuel base rem s1
      else if c = '[' && cs.head? = some ':' then
        match matchClassToken toks with
        | none => .error (.userErr ("problem extracting a character class from " ++ delimit (String.mk toks)))
        | some (nm, rem) =>
          match classSelector nm with
          | none => .error (.userErr (delimit nm ++ " is not the name of an implemented character class"))
          | some sel =>
            match byteSelGen w fuel sel.data s with
            | .error e => .error e
            | .ok s1 => byteSelLoop w fuel base rem s1
      else
        match matchRawOpen toks with
        | some (nh, q, afterOpen) =>
          let close : List Char := q :: List.replicate nh '#'
          match splitFirst close afterOpen with
          | none => byteSelLoop w fuel base afterOpen s
          | some (body, tail) =>
            if tail.isEmpty || isBlankChar (tail.headD ' ') then
              let codes := rawCodes body
              if codes.isEmpty then byteSelLoop w fuel base tail s
              else
                match byteSelGen w fuel (rawSelector codes).data s with
                | .error e => .error e
                | .ok s1 => byteSelLoop w fuel base tail s1
            else .error (.userErr ("all tokens must be space separated in byte selector " ++ delimit (String.mk toks)))
        | none => .error (.userErr ("no valid token found at the start of byte selector " ++ delimit (String.mk toks)))

end

/-- `ByteDump.byte_selector(attribute, tokens, output)`: parses the
selector and assigns the attribute (`attr`, named `attribute` in the
source — a Lean keyword) to every selected slot of `output`. -/
def byte_selector (fuel : Nat) (attr : String) (tokens : String)
    (output : AttrTable) : Except SelErr AttrTable :=
  byteSelGen (fun t i => tableSet t i attr) fuel tokens.data output

/-- The same parse recording the sequence of indices written instead of
writing them: the control flow of `byte_selector` never reads the output
table, so this captures everything the parse does. -/
def byteSelIdx (fuel : Nat) (tokens : String) : Except SelErr (List Nat) :=
  byteSelGen (fun l i => l ++ [i]) fuel tokens.data []

/-- Left padding with a fill character up to a minimum width (the effect
of Python's `{i:0Nb}` / `{i:>N}` format specs on a digit string). -/
def padLeft (fill : Char) (width : Nat) (s : List Char) : List Char :=
  List.replicate (width - s.length) fill ++ s

/-- Python `f"{i:08b}"`. -/
def pyFormatBin8 (i : Nat) : String := String.mk (padLeft '0' 8 (Nat.toDigits 2 i))

/-- Python `f"{i:>3}"` (right-aligned, space fill). -/
def pyFormatDec3 (i : Nat) : String := String.mk (padLeft ' ' 3 (Nat.toDigits 10 i))

/-- Python `f"{i:02x}"`. -/
def pyFormatHexLower2 (i : Nat) : String := String.mk (padLeft '0' 2 (Nat.toDigits 16 i))

/-- Python `f"{i:02X}"`. -/
def pyFormatHexUpper2 (i : Nat) : String :=
  String.mk (padLeft '0' 2 ((Nat.toDigits 16 i).map Char.toUpper))

/-- Python `f"{i:03o}"`. -/
def pyFormatOct3 (i : Nat) : String := String.mk (padLeft '0' 3 (Nat.toDigits 8 i))

/-- The BYTE-field mapping-array builder of `ByteDump.initialize4_maps`
(lines 1660–1672): one 256-entry list comprehension per output style,
`internal_error` for a style with no registered builder. -/
def initialize4_byte_map (byteOutput : String) : Except SelErr (List String) :=
  match byteOutput with
  | "BINARY" => .ok ((List.range 256).map pyFormatBin8)
  | "DECIMAL" => .ok ((List.range 256).map pyFormatDec3)
  | "HEX-LOWER" => .ok ((List.range 256).map pyFormatHexLower2)
  | "HEX-UPPER" => .ok ((List.range 256).map pyFormatHexUpper2)
  | "OCTAL" => .ok ((List.range 256).map pyFormatOct3)
  | _ => .error (.internalErr ("builder for base " ++ delimit byteOutput ++ " map has not been implemented"))

/-- Validity of one digit character in a base up to 16. -/
def isBaseDigit (base : Nat) (c : Char) : Bool := isHexDigitChar c && digitVal c < base

/-- Python `int(entry, base)` on a byte-map entry: leading spaces are
stripped (as `int` does), then the remaining characters must all be
digits of the base. -/
def parseBack (base : Nat) (s : String) : Option Nat :=
  let l := s.data.dropWhile (· = ' ')
  if l ≠ [] ∧ l.all (isBaseDigit base) then some (digitsToNat base l) else none

/-- Four-digit uppercase hex, as in the `"\uXXXX"` entries of the TEXT
mapping-array literals. -/
def hex4Upper (n : Nat) : String :=
  String.mk ((padLeft '0' 4 (Nat.toDigits 16 n)).map Char.toUpper)

/-- One unexpanded `"\uXXXX"` entry (a literal backslash, a `u` and four
uppercase hex digits — the Python source writes it `"\\uXXXX"`). -/
def uEsc (n : Nat) : String := "\\u" ++ hex4Upper n

/-- `ByteDump.ASCII_TEXT_MAP` (lines 168–212): printable ASCII bytes as
unexpanded `"\uXXXX"` entries, every other byte as `"."`. -/
def ASCII_TEXT_MAP : List String :=
  (List.range 256).map fun i => if 0x20 ≤ i ∧ i ≤ 0x7E then uEsc i else "."

/-- `ByteDump.UNICODE_TEXT_MAP` (lines 222–266): like the ASCII map plus
the printable Latin-1 supplement block 0xA0–0xFF. -/
def UNICODE_TEXT_MAP : List String :=
  (List.range 256).map fun i =>
    if (0x20 ≤ i ∧ i ≤ 0x7E) ∨ 0xA0 ≤ i then uEsc i else "."

/-- One entry of `ByteDump.CARET_TEXT_MAP` (lines 283–327): C0 controls
and DEL as caret plus `(byte + 0x40) % 0x80`, C1 controls as caret plus
`(byte + 0x40) % 0x80 + 0x80`, printable bytes as a space plus the byte's
own code point. -/
def caretEntry (i : Nat) : String :=
  if i ≤ 0x1F then "^" ++ uEsc (i + 0x40)
  else if i = 0x7F then "^" ++ uEsc 0x3F
  else if 0x80 ≤ i ∧ i ≤ 0x9F then "^" ++ uEsc (i + 0x40)
  else " " ++ uEsc i

/-- `ByteDump.CARET_TEXT_MAP`. -/
def CARET_TEXT_MAP : List String := (List.range 256).map caretEntry

/-- `ByteDump.CARET_ESCAPE_TEXT_MAP` (lines 336–380): the caret map with
C-style escapes replacing caret notation where one is defined.  The
escape entries (`"\\0"`, `"\\a"`, … and `"\\?"` for DEL) do not end in a
`\uXXXX` group, so `initialize4_maps` leaves them untouched. -/
def CARET_ESCAPE_TEXT_MAP : List String :=
  (List.range 256).map fun i =>
    if i = 0x00 then "\\0"
    else if i = 0x07 then "\\a"
    else if i = 0x08 then "\\b"
    else if i = 0x09 then "\\t"
    else if i = 0x0A then "\\n"
    else if i = 0x0B then "\\v"
    else if i = 0x0C then "\\f"
    else if i = 0x0D then "\\r"
    else if i = 0x7F then "\\?"
    else caretEntry i

/-- The class variables of `ByteDump` that the engine reads and the
initialization phases write.  Names ending in `prefix` in the source are
rendered `pfx` here.  Counts that Python initializes to `-1` or computes
by subtraction are `Int`. -/
structure Settings where
  DUMP_field_flags : Nat
  DUMP_layout : String
  DUMP_layout_default : String
  DUMP_output_start : Nat
  DUMP_record_length : Nat
  DUMP_record_length_limit : Nat
  DUMP_record_separator : String
  ADDR_output : String
  ADDR_digits : Nat
  ADDR_field_separator : String
  ADDR_field_separator_size : Nat
  ADDR_format : String
  ADDR_format_width : String
  ADDR_format_width_default : String
  ADDR_format_width_default_xxd : String
  ADDR_format_width_limit : Nat
  ADDR_padding : String
  ADDR_pfx : String
  ADDR_pfx_size : Nat
  ADDR_radix : Int
  ADDR_suffix : String
  ADDR_suffix_size : Nat
  BYTE_output : String
  BYTE_digits_per_octet : Int
  BYTE_field_separator : String
  BYTE_field_width : Int
  BYTE_indent : String
  BYTE_map : String
  BYTE_pfx : String
  BYTE_pfx_size : Nat
  BYTE_separator : String
  BYTE_separator_size : Nat
  BYTE_suffix : String
  BYTE_suffix_size : Nat
  TEXT_output : String
  TEXT_chars_per_octet : Int
  TEXT_indent : String
  TEXT_map : String
  TEXT_pfx : String
  TEXT_pfx_size : Nat
  TEXT_separator : String
  TEXT_separator_size : Nat
  TEXT_suffix : String
  TEXT_suffix_size : Nat
  TEXT_unexpanded_string : String

/-- The class-variable initializers of the source (lines 74–134). -/
def defaultSettings : Settings where
  DUMP_field_flags := 0
  DUMP_layout := "WIDE"
  DUMP_layout_default := "WIDE"
  DUMP_output_start := 0
  DUMP_record_length := 16
  DUMP_record_length_limit := 4096
  DUMP_record_separator := "\n"
  ADDR_output := "HEX-LOWER"
  ADDR_digits := 0
  ADDR_field_separator := " "
  ADDR_field_separator_size := 1
  ADDR_format := ""
  ADDR_format_width := ""
  ADDR_format_width_default := "6"
  ADDR_format_width_default_xxd := "08"
  ADDR_format_width_limit := 0
  ADDR_padding := " "
  ADDR_pfx := ""
  ADDR_pfx_size := 0
  ADDR_radix := -1
  ADDR_suffix := ":"
  ADDR_suffix_size := 1
  BYTE_output := "HEX-LOWER"
  BYTE_digits_per_octet := -1
  BYTE_field_separator := "  "
  BYTE_field_width := 0
  BYTE_indent := ""
  BYTE_map := ""
  BYTE_pfx := ""
  BYTE_pfx_size := 0
  BYTE_separator := " "
  BYTE_separator_size := 1
  BYTE_suffix := ""
  BYTE_suffix_size := 0
  TEXT_output := "ASCII"
  TEXT_chars_per_octet := -1
  TEXT_indent := ""
  TEXT_map := ""
  TEXT_pfx := ""
  TEXT_pfx_size := 0
  TEXT_separator := ""
  TEXT_separator_size := 0
  TEXT_suffix := ""
  TEXT_suffix_size := 0
  TEXT_unexpanded_string := ""

def ADDR_field_flag : Nat := 0x01

def BYTE_field_flag : Nat := 0x02

def TEXT_field_flag : Nat := 0x04

/-- `flags &= ~flag` for the three field-flag bits (all below 8). -/
def clearFlag (flags flag : Nat) : Nat := flags &&& (7 ^^^ flag)

/-- `hasattr(cls, name)` for the TEXT mapping-array names that can reach
the check in `initialize1_fields`. -/
def textMapNameExists (name : String) : Bool :=
  name = "ASCII_TEXT_MAP" || name = "UNICODE_TEXT_MAP" ||
  name = "CARET_TEXT_MAP" || name = "CARET_ESCAPE_TEXT_MAP"

/-- `hasattr(cls, name)` for the BYTE mapping-array name (`byte_map` is a
class variable, initially `None`). -/
def byteMapNameExists (name : String) : Bool := name = "byte_map"

/-- `ByteDump.initialize1_fields` (lines 1339–1497): checks the three
output styles and initializes every field that depends on them; clears
the field flag of an EMPTY field, and an EMPTY BYTE or TEXT field resets
`DUMP_layout` to the default. -/
def initialize1_fields (s0 : Settings) : Except SelErr Settings := do
  let s := { s0 with DUMP_field_flags := ADDR_field_flag ||| BYTE_field_flag ||| TEXT_field_flag }
  let s ←
    match s.ADDR_output with
    | "DECIMAL" =>
      let w := if s.ADDR_format_width.length > 0 then s.ADDR_format_width else s.ADDR_format_width_default
      pure { s with ADDR_format_width := w, ADDR_format := "%" ++ w ++ "d",
                    ADDR_digits := digitsToNat 10 w.data, ADDR_radix := 10 }
    | "EMPTY" =>
      pure { s with ADDR_format_width := "0", ADDR_format := "", ADDR_digits := 0, ADDR_radix := 0,
                    DUMP_field_flags := clearFlag s.DUMP_field_flags ADDR_field_flag }
    | "HEX-LOWER" =>
      let w := if s.ADDR_format_width.length > 0 then s.ADDR_format_width else s.ADDR_format_width_default
      pure { s with ADDR_format_width := w, ADDR_format := "%" ++ w ++ "x",
                    ADDR_digits := digitsToNat 10 w.data, ADDR_radix := 16 }
    | "HEX-UPPER" =>
      let w := if s.ADDR_format_width.length > 0 then s.ADDR_format_width else s.ADDR_format_width_default
      pure { s with ADDR_format_width := w, ADDR_format := "%" ++ w ++ "X",
                    ADDR_digits := digitsToNat 10 w.data, ADDR_radix := 16 }
    | "OCTAL" =>
      let w := if s.ADDR_format_width.length > 0 then s.ADDR_format_width else s.ADDR_format_width_default
      pure { s with ADDR_format_width := w, ADDR_format := "%" ++ w ++ "o",
                    ADDR_digits := digitsToNat 10 w.data, ADDR_radix := 8 }
    | "XXD" =>
      let w := if s.ADDR_format_width.length > 0 then s.ADDR_format_width else s.ADDR_format_width_default_xxd
      pure { s with ADDR_output := "HEX-LOWER", ADDR_format_width := w, ADDR_format := "%" ++ w ++ "x",
                    ADDR_digits := digitsToNat 10 w.data, ADDR_radix := 16 }
    | other => throw (.internalErr ("address output " ++ delimit other ++ " has not been implemented"))
  if s.ADDR_format_width_limit > 0 ∧ s.ADDR_digits > s.ADDR_format_width_limit then
    throw (.userErr ("address width " ++ delimit s.ADDR_format_width ++
      " exceeds the internal limit of " ++ delimit (toString s.ADDR_format_width_limit)))
  let s := { s with ADDR_pfx_size := s.ADDR_pfx.length, ADDR_suffix_size := s.ADDR_suffix.length,
                    ADDR_field_separator_size := s.ADDR_field_separator.length,
                    ADDR_padding := if s.ADDR_format_width.startsWith "0" then "0" else " " }
  let s ←
    match s.TEXT_output with
    | "ASCII" =>
      pure { s with TEXT_map := "ASCII_TEXT_MAP", TEXT_chars_per_octet := 1, TEXT_unexpanded_string := "?" }
    | "CARET" =>
      pure { s with TEXT_map := "CARET_TEXT_MAP", TEXT_chars_per_octet := 2, TEXT_unexpanded_string := "??" }
    | "CARET_ESCAPE" =>
      pure { s with TEXT_map := "CARET_ESCAPE_TEXT_MAP", TEXT_chars_per_octet := 2, TEXT_unexpanded_string := "??" }
    | "EMPTY" =>
      pure { s with TEXT_map := "", TEXT_chars_per_octet := 0, TEXT_unexpanded_string := "",
                    BYTE_field_separator := "", DUMP_layout := s.DUMP_layout_default,
                    DUMP_field_flags := clearFlag s.DUMP_field_flags TEXT_field_flag }
    | "UNICODE" =>
      pure { s with TEXT_map := "UNICODE_TEXT_MAP", TEXT_chars_per_octet := 1, TEXT_unexpanded_string := "?" }
    | "XXD" =>
      pure { s with TEXT_output := "ASCII", TEXT_map := "ASCII_TEXT_MAP", TEXT_chars_per_octet := 1,
                    TEXT_unexpanded_string := "?" }
    | other => throw (.internalErr ("text output " ++ delimit other ++ " has not been implemented"))
  let s := { s with TEXT_pfx_size := s.TEXT_pfx.length, TEXT_suffix_size := s.TEXT_suffix.length,
                    TEXT_separator_size := s.TEXT_separator.length }
  if s.TEXT_map.length > 0 ∧ ¬ textMapNameExists s.TEXT_map then
    throw (.internalErr (delimit s.TEXT_map ++ " is not recognized as a TEXT field mapping array name"))
  let s ←
    match s.BYTE_output with
    | "BINARY" => pure { s with BYTE_map := "byte_map", BYTE_digits_per_octet := 8 }
    | "DECIMAL" => pure { s with BYTE_map := "byte_map", BYTE_digits_per_octet := 3 }
    | "EMPTY" =>
      if s.TEXT_output ≠ "EMPTY" then
        pure { s with BYTE_map := "", BYTE_digits_per_octet := 0, DUMP_layout := s.DUMP_layout_default,
                      DUMP_field_flags := clearFlag s.DUMP_field_flags BYTE_field_flag }
      else throw (.userErr "byte and text fields can't both be empty")
    | "HEX-LOWER" => pure { s with BYTE_map := "byte_map", BYTE_digits_per_octet := 2 }
    | "HEX-UPPER" => pure { s with BYTE_map := "byte_map", BYTE_digits_per_octet := 2 }
    | "OCTAL" => pure { s with BYTE_map := "byte_map", BYTE_digits_per_octet := 3 }
    | "XXD" => pure { s with BYTE_output := "HEX-LOWER", BYTE_map := "byte_map", BYTE_digits_per_octet := 2 }
    | other => throw (.internalErr ("byte output " ++ delimit other ++ " has not been implemented"))
  if s.BYTE_map.length > 0 ∧ ¬ byteMapNameExists s.BYTE_map then
    throw (.internalErr (delimit s.BYTE_map ++ " is not recognized as a BYTE field mapping array name"))
  let s := { s with BYTE_pfx_size := s.BYTE_pfx.length, BYTE_suffix_size := s.BYTE_suffix.length,
                    BYTE_separator_size := s.BYTE_separator.length }
  if s.DUMP_record_length_limit > 0 ∧ s.DUMP_record_length > s.DUMP_record_length_limit then
    throw (.userErr ("requested record length " ++ delimit (toString s.DUMP_record_length) ++
      " exceeds the internal buffer limit of " ++ delimit (toString s.DUMP_record_length_limit) ++ " bytes"))
  pure s

/-- `ByteDump.initialize2_field_widths` (lines 1500–1520). -/
def initialize2_field_widths (s : Settings) : Settings :=
  if s.DUMP_record_length > 0 then
    if s.BYTE_output = "EMPTY" || s.TEXT_output = "EMPTY" || s.DUMP_layout = "NARROW" then
      { s with BYTE_field_width := 0 }
    else
      { s with BYTE_field_width :=
          (s.DUMP_record_length : Int) * (s.BYTE_digits_per_octet + (s.BYTE_separator_size : Int)) -
          (s.BYTE_separator_size : Int) }
  else { s with BYTE_field_width := 0 }

/-- Python `f"{'':>{n}}"` for a positive count: `n` spaces. -/
def spacesI (n : Int) : String := String.mk (List.replicate n.toNat ' ')

/-- `ByteDump.initialize3_layout` (lines 1522–1608): the NARROW-layout
normalization, a no-op for WIDE, `internal_error` for any other layout
name. -/
def initialize3_layout (s : Settings) : Except SelErr Settings :=
  if s.DUMP_layout = "NARROW" then
    let s := { s with BYTE_field_separator := "\n" }
    let padding : Int := (s.BYTE_pfx_size : Int) - (s.TEXT_pfx_size : Int)
    let s :=
      if padding > 0 then { s with TEXT_indent := s.TEXT_indent ++ spacesI padding }
      else if padding < 0 then { s with BYTE_indent := s.BYTE_indent ++ spacesI (-padding) }
      else s
    let padding : Int :=
      s.BYTE_digits_per_octet - s.TEXT_chars_per_octet +
      (s.BYTE_separator_size : Int) - (s.TEXT_separator_size : Int)
    let s :=
      if padding > 0 then
        { s with TEXT_separator := s.TEXT_separator ++ spacesI padding,
                 TEXT_separator_size := (s.TEXT_separator ++ spacesI padding).length }
      else if padding < 0 then
        { s with BYTE_separator := s.BYTE_separator ++ spacesI (-padding),
                 BYTE_separator_size := (s.BYTE_separator ++ spacesI (-padding)).length }
      else s
    let padding : Int := s.BYTE_digits_per_octet - s.TEXT_chars_per_octet
    if padding < 0 then throw (.internalErr "chars per octet exceeds digits per octet")
    else
      let s :=
        if padding > 0 then
          { s with TEXT_pfx := s.TEXT_pfx ++ spacesI padding,
                   TEXT_pfx_size := (s.TEXT_pfx ++ spacesI padding).length }
        else s
      if s.ADDR_output ≠ "EMPTY" then
        let padding : Int :=
          (s.ADDR_pfx_size : Int) + (s.ADDR_digits : Int) + (s.ADDR_suffix_size : Int) +
          (s.ADDR_field_separator_size : Int)
        if padding > 0 then pure { s with TEXT_indent := s.TEXT_indent ++ spacesI padding }
        else pure s
      else pure s
  else if s.DUMP_layout ≠ "WIDE" then
    throw (.internalErr ("layout " ++ delimit s.DUMP_layout ++ " has not been implemented"))
  else pure s

/-- The trailing-`\uXXXX` regex `^(.*)(\\u([0-9a-fA-F]{4}))$` of
`initialize4_maps`: with `.*` greedy, it matches iff the last six
characters are a backslash, `u` and four hex digits. -/
def matchTrailingUEsc (element : String) : Option (String × Nat) :=
  let l := element.data
  if l.length < 6 then none
  else
    match l.drop (l.length - 6) with
    | '\\' :: 'u' :: d =>
      if d.all isHexDigitChar then some (String.mk (l.take (l.length - 6)), digitsToNat 16 d)
      else none
    | _ => none

/-- The TEXT-map expansion loop of `initialize4_maps` (lines 1688–1696):
every entry ending in `\uXXXX` becomes its prefix plus the character of
the code point when the output encoding can encode it, the style's
fallback marker otherwise.  `canEncode` stands for
`chr(codepoint).encode(encoding)` succeeding. -/
def initialize4_text_map (canEncode : Nat → Bool) (tm : List String)
    (unexpanded : String) : List String :=
  tm.map fun element =>
    match matchTrailingUEsc element with
    | some pc => if canEncode pc.2 then pc.1 ++ String.singleton (Char.ofNat pc.2) else unexpanded
    | none => element

/-- `getattr(cls, cls.TEXT_map)` for the four mapping-array names. -/
def textMapByName (name : String) : Option (List String) :=
  if name = "ASCII_TEXT_MAP" then some ASCII_TEXT_MAP
  else if name = "UNICODE_TEXT_MAP" then some UNICODE_TEXT_MAP
  else if name = "CARET_TEXT_MAP" then some CARET_TEXT_MAP
  else if name = "CARET_ESCAPE_TEXT_MAP" then some CARET_ESCAPE_TEXT_MAP
  else none

/-- `ByteDump.initialize4_maps` (lines 1611–1700): builds the BYTE map
when one is named, resolves and expands the TEXT map when one is named. -/
def initialize4_maps (canEncode : Nat → Bool) (s : Settings) :
    Except SelErr (Option (List String) × Option (List String)) := do
  let byteMap ←
    if s.BYTE_map.length > 0 then do
      let m ← initialize4_byte_map s.BYTE_output
      pure (some m)
    else pure none
  let textMap ←
    if s.TEXT_map.length > 0 then
      match textMapByName s.TEXT_map with
      | some tm => pure (some (initialize4_text_map canEncode tm s.TEXT_unexpanded_string))
      | none => throw (.internalErr (delimit s.TEXT_map ++ " is not a recognized text mapping array name"))
    else pure none
  pure (byteMap, textMap)

/-- Python `%`-formatting for the format strings `initialize1_fields`
builds (`"%" + width + conv` with `conv` one of `d`, `x`, `X`, `o` and
`width` a decimal numeral, zero-padding when it starts with `0`). -/
def pyPercentFormat (fmt : String) (n : Nat) : String :=
  match fmt.data with
  | '%' :: rest =>
    match rest.getLast? with
    | some conv =>
      let widthChars := rest.dropLast
      let zeroPad := widthChars.headD ' ' = '0'
      let width := digitsToNat 10 widthChars
      let digits : List Char :=
        if conv = 'x' then Nat.toDigits 16 n
        else if conv = 'X' then (Nat.toDigits 16 n).map Char.toUpper
        else if conv = 'o' then Nat.toDigits 8 n
        else Nat.toDigits 10 n
      String.mk (padLeft (if zeroPad then '0' else ' ') width digits)
    | none => fmt
  | _ => fmt

/-- Python `sep.join(parts)`. -/
def joinSep (sep : String) : List String → String
  | [] => ""
  | x :: xs => xs.foldl (fun acc y => acc ++ sep ++ y) x

/-- Indexing a mapping array with a byte value (`byte_map[b]`; byte
values read from the stream are always below the 256-entry length). -/
def mapAt (m : List String) (b : Nat) : String := m.getD b ""

/-- One record of `ByteDump.dump_all` (lines 1071–1088): the ADDR part
when an address format is set, the BYTE part with its end-of-stream
padding, the TEXT part, then the record separator. -/
def dump_all_record (S : Settings) (byteMap textMap : Option (List String))
    (address : Nat) (buffer : List Nat) : String :=
  let count := buffer.length
  let byte_pad_width : Int :=
    if byteMap.isSome ∧ S.BYTE_field_width > 0 then
      S.BYTE_digits_per_octet + (S.BYTE_separator_size : Int)
    else 0
  let addrPart :=
    if S.ADDR_format.length > 0 then
      S.ADDR_pfx ++ pyPercentFormat S.ADDR_format address ++ S.ADDR_suffix ++ S.ADDR_field_separator
    else ""
  let bytePart :=
    match byteMap with
    | some m =>
      (S.BYTE_indent ++ S.BYTE_pfx) ++ joinSep S.BYTE_separator (buffer.map (mapAt m)) ++
      (if count < S.DUMP_record_length ∧ byte_pad_width > 0 then
        spacesI (((S.DUMP_record_length - count : Nat) : Int) * byte_pad_width)
      else "") ++
      (S.BYTE_suffix ++ S.BYTE_field_separator)
    | none => ""
  let textPart :=
    match textMap with
    | some m => (S.TEXT_indent ++ S.TEXT_pfx) ++ joinSep S.TEXT_separator (buffer.map (mapAt m)) ++ S.TEXT_suffix
    | none => ""
  addrPart ++ bytePart ++ textPart ++ S.DUMP_record_separator

/-- The `while True` read loop of `ByteDump.dump_all`: reads
`record_length` bytes, stops on an empty read, advances the address by
the bytes actually read.  `fuel` bounds the iterations; the callers pass
`input.length + 1`, which always suffices. -/
def dump_all_loop (S : Settings) (byteMap textMap : Option (List String)) :
    Nat → Nat → List Nat → String
  | 0, _, _ => ""
  | fuel + 1, address, input =>
    let buffer := input.take S.DUMP_record_length
    if buffer.length = 0 then ""
    else
      dump_all_record S byteMap textMap address buffer ++
      dump_all_loop S byteMap textMap fuel (address + buffer.length) (input.drop S.DUMP_record_length)

/-- `ByteDump.dump_all` (lines 994–1093): the fixed-length multi-field
renderer; `internal_error` when called with `record_length == 0`. -/
def dump_all (S : Settings) (byteMap textMap : Option (List String))
    (input : List Nat) : Except SelErr String :=
  if S.DUMP_record_length > 0 then
    .ok (dump_all_loop S byteMap textMap (input.length + 1) S.DUMP_output_start input)
  else .error (.internalErr "single record dump has not been handled properly")

/-- The decorated path of `dump_byte_field` / `dump_text_field`: per
record a prefix (indent plus field prefix), the separator-joined entries
and a suffix (field suffix plus record separator). -/
def dump_field_complex_loop (recordLen : Nat) (m : List String)
    (pfx sep suffix : String) : Nat → List Nat → String
  | 0, _ => ""
  | fuel + 1, input =>
    let buffer := input.take recordLen
    if buffer.length = 0 then ""
    else
      pfx ++ joinSep sep (buffer.map (mapAt m)) ++ suffix ++
      dump_field_complex_loop recordLen m pfx sep suffix fuel (input.drop recordLen)

/-- The plain path of `dump_byte_field` / `dump_text_field`: direct
concatenation of the entries and the record separator. -/
def dump_field_plain_loop (recordLen : Nat) (m : List String)
    (recordSeparator : String) : Nat → List Nat → String
  | 0, _ => ""
  | fuel + 1, input =>
    let buffer := input.take recordLen
    if buffer.length = 0 then ""
    else
      joinSep "" (buffer.map (mapAt m)) ++ recordSeparator ++
      dump_field_plain_loop recordLen m recordSeparator fuel (input.drop recordLen)

/-- `ByteDump.dump_byte_field` (lines 1188–1239): the BYTE-only
fixed-length renderer with its one-time choice between the decorated and
the plain code path. -/
def dump_byte_field (S : Settings) (byteMap : Option (List String))
    (input : List Nat) : Except SelErr String :=
  if S.DUMP_record_length > 0 then
    match byteMap with
    | some m =>
      let complexFmt := S.BYTE_separator.length > 0 || S.BYTE_pfx.length > 0 ||
                        S.BYTE_indent.length > 0 || S.BYTE_suffix.length > 0
      if complexFmt then
        .ok (dump_field_complex_loop S.DUMP_record_length m (S.BYTE_indent ++ S.BYTE_pfx)
          S.BYTE_separator (S.BYTE_suffix ++ S.DUMP_record_separator) (input.length + 1) input)
      else
        .ok (dump_field_plain_loop S.DUMP_record_length m S.DUMP_record_separator (input.length + 1) input)
    | none => .error (.internalErr "byte mapping array has not been initialized")
  else .error (.internalErr "single record dump has not been handled properly")

/-- `ByteDump.dump_text_field` (lines 1241–1292): the TEXT-only
fixed-length renderer with the same two code paths. -/
def dump_text_field (S : Settings) (textMap : Option (List String))
    (input : List Nat) : Except SelErr String :=
  if S.DUMP_record_length > 0 then
    match textMap with
    | some m =>
      let complexFmt := S.TEXT_separator.length > 0 || S.TEXT_pfx.length > 0 ||
                        S.TEXT_indent.length > 0 || S.TEXT_suffix.length > 0
      if complexFmt then
        .ok (dump_field_complex_loop S.DUMP_record_length m (S.TEXT_indent ++ S.TEXT_pfx)
          S.TEXT_separator (S.TEXT_suffix ++ S.DUMP_record_separator) (input.length + 1) input)
      else
        .ok (dump_field_plain_loop S.DUMP_record_length m S.DUMP_record_separator (input.length + 1) input)
    | none => .error (.internalErr "text mapping array has not been initialized")
  else .error (.internalErr "single record dump has not been handled properly")

/-- The 4096-byte chunking of `ByteDump.dump_all_single_record`'s read
loop (the list is empty exactly when the source yields zero bytes, in
which case `looped` stays false and nothing is written). -/
def single_record_chunks : Nat → List Nat → List (List Nat)
  | 0, _ => []
  | fuel + 1, input =>
    if input.length = 0 then []
    else input.take 4096 :: single_record_chunks fuel (input.drop 4096)

/-- One field of the single-record dump: the first chunk is preceded by
indent plus field prefix, each later chunk by the field separator (the
running `current_*_prefix` of the source). -/
def single_record_field (firstPfx sep : String) (m : List String)
    (chunks : List (List Nat)) : String :=
  (chunks.foldl (fun (acc : String × String) ch =>
    (acc.1 ++ acc.2 ++ joinSep sep (ch.map (mapAt m)), sep)) ("", firstPfx)).1

/-- `ByteDump.dump_all_single_record` (lines 1095–1186): the whole input
as one record; the address is written once before the first chunk, the
TEXT field is buffered when the BYTE field is also enabled and flushed
after the BYTE suffix, and nothing at all is written when the loop never
ran.  `internal_error` when `record_length != 0`. -/
def dump_all_single_record (S : Settings) (byteMap textMap : Option (List String))
    (input : List Nat) : Except SelErr String :=
  if S.DUMP_record_length = 0 then
    let chunks := single_record_chunks (input.length + 1) input
    if chunks.isEmpty then .ok ""
    else
      let addrPart :=
        if S.ADDR_format.length > 0 then
          S.ADDR_pfx ++ pyPercentFormat S.ADDR_format S.DUMP_output_start ++ S.ADDR_suffix ++ S.ADDR_field_separator
        else ""
      let bytePart :=
        match byteMap with
        | some m => single_record_field (S.BYTE_indent ++ S.BYTE_pfx) S.BYTE_separator m chunks
        | none => ""
      let textPart :=
        match textMap with
        | some m => single_record_field (S.TEXT_indent ++ S.TEXT_pfx) S.TEXT_separator m chunks
        | none => ""
      let tailPart :=
        match byteMap with
        | some _ =>
          (S.BYTE_suffix ++ S.BYTE_field_separator) ++
          (match textMap with
           | some _ => textPart ++ S.TEXT_suffix
           | none => "")
        | none => S.TEXT_suffix
      .ok (addrPart ++ bytePart ++
        (match byteMap with | none => textPart | some _ => "") ++
        tailPart ++ S.DUMP_record_separator)
  else .error (.internalErr "this method can only be called to dump bytes as a single record")

/-- `ByteDump.dump` (lines 982–990): selects the rendering method from
the record length and the enabled-field flags (the stream seek and
byte-count-limit plumbing of lines 974–980 is outside the engine). -/
def dump (S : Settings) (byteMap textMap : Option (List String))
    (input : List Nat) : Except SelErr String :=
  if S.DUMP_record_length > 0 then
    if S.DUMP_field_flags = BYTE_field_flag then dump_byte_field S byteMap input
    else if S.DUMP_field_flags = TEXT_field_flag then dump_text_field S textMap input
    else dump_all S byteMap textMap input
  else dump_all_single_record S byteMap textMap input

/-- The initialization phases in their fixed call order (`initialize`,
lines 1332–1336, without the attribute phase, which only decorates map
entries when color options were given) followed by `dump`. -/
def run_pipeline (canEncode : Nat → Bool) (s0 : Settings) (input : List Nat) :
    Except SelErr String := do
  let s1 ← initialize1_fields s0
  let s2 := initialize2_field_widths s1
  let s3 ← initialize3_layout s2
  let maps ← initialize4_maps canEncode s3
  dump s3 maps.1 maps.2 input

/-- Writing the attribute at every index of `l`, in order (the cumulative
effect of the write loops of one `byte_selector` run). -/
def writeAll (attr : String) (l : List Nat) (t : AttrTable) : AttrTable :=
  l.foldl (fun t2 i => tableSet t2 i attr) t

theorem writeAll_apply (attr : String) (l : List Nat) (t : AttrTable) (j : Nat) :
    writeAll attr l t j = if j ∈ l then some attr else t j := by
  induction l generalizing t with
  | nil => simp [writeAll]
  | cons i is ih =>
    show writeAll attr is (tableSet t i attr) j = _
    rw [ih]
    by_cases hjis : j ∈ is
    · simp [hjis]
    · by_cases hji : j = i <;> simp [hjis, hji, tableSet]

theorem applyRangeGen_sim {σ τ : Type} (h : σ → τ) (w : σ → Nat → σ) (w2 : τ → Nat → τ)
    (hw : ∀ s i, h (w s i) = w2 (h s) i) :
    ∀ (l : List Nat) (s : σ), applyRangeGen w2 l (h s) = (applyRangeGen w l s).map h := by
  intro l
  induction l with
  | nil => intro s; rfl
  | cons i is ih =>
    intro s
    by_cases hi : i < TABLE_SIZE
    · simp only [applyRangeGen, if_pos hi, ← hw, ih]
    · simp only [applyRangeGen, if_neg hi, Except.map]

theorem writeInterval_sim {σ τ : Type} (h : σ → τ) (w : σ → Nat → σ) (w2 : τ → Nat → τ)
    (hw : ∀ s i, h (w s i) = w2 (h s) i) (first lastv : Nat) (s : σ) :
    writeInterval w2 first lastv (h s) = (writeInterval w first lastv s).map h := by
  by_cases hg : first ≤ lastv ∧ first < 256
  · simp only [writeInterval, if_pos hg]
    exact applyRangeGen_sim h w w2 hw _ s
  · simp only [writeInterval, if_neg hg, Except.map]

/-- The parse's control flow never inspects the threaded state: any two
instantiations of `byteSelGen` related by a state morphism stay related. -/
theorem byteSelGen_sim {σ τ : Type} (h : σ → τ) (w : σ → Nat → σ) (w2 : τ → Nat → τ)
    (hw : ∀ s i, h (w s i) = w2 (h s) i) :
    ∀ fuel,
      (∀ tokens s, byteSelGen w2 fuel tokens (h s) = (byteSelGen w fuel tokens s).map h) ∧
      (∀ base tokens s, byteSelLoop w2 fuel base tokens (h s) = (byteSelLoop w fuel base tokens s).map h) := by
  intro fuel
  induction fuel with
  | zero => exact ⟨fun _ _ => rfl, fun _ _ _ => rfl⟩
  | succ n ih =>
    refine ⟨?_, ?_⟩
    · intro tokens s
      simp only [byteSelGen]
      cases matchBase tokens with
      | none => exact ih.2 0 tokens s
      | some p => exact ih.2 p.1 p.2 s
    · intro base tokens s
      simp only [byteSelLoop]
      split
      · rfl
      · rename_i c cs _
        split
        · -- integer / integer-range token
          split
          · rfl
          · rw [writeInterval_sim h w w2 hw]
            cases writeInterval w _ _ s with
            | error e => rfl
            | ok s1 => exact ih.2 base _ s1
        · split
          · -- character-class token
            split
            · rfl
            · split
              · rfl
              · rename_i sel _
                rw [ih.1 sel.data s]
                cases byteSelGen w n sel.data s with
                | error e => rfl
                | ok s1 => exact ih.2 base _ s1
          · -- raw-string token
            split
            · split
              · exact ih.2 base _ s
              · split
                · split
                  · exact ih.2 base _ s
                  · rename_i body _ _ _ _
                    rw [ih.1 (rawSelector (rawCodes body)).data s]
                    cases byteSelGen w n (rawSelector (rawCodes body)).data s with
                    | error e => rfl
                    | ok s1 => exact ih.2 base _ s1
                · rfl
            · rfl

/-- `byte_selector` factors through the index trace: the result table is
the input table overridden with the attribute at the traced indices. -/
theorem byte_selector_eq_writeAll (fuel : Nat) (attr tokens : String) (t : AttrTable) :
    byte_selector fuel attr tokens t =
      (byteSelIdx fuel tokens).map (fun l => writeAll attr l t) := by
  have hs := byteSelGen_sim (fun l => writeAll attr l t)
      (fun l i => l ++ [i]) (fun t2 i => tableSet t2 i attr)
      (fun s i => by simp [writeAll, List.foldl_append]) fuel
  exact hs.1 tokens.data []

/-- C1: Refuted as stated; the code has the bug.  For a range token `a-b`
with `a ≤ 255 < b` the source clamps the upper end to 256 (not 255:
`if last > 256: last = 256`) and the write loop `range(first, last + 1)`
then assigns to `output[256]`, one past the end of the 256-entry table,
raising `IndexError` — instead of clamping to 255 and succeeding as the
claim (and the source's own comment, "any integer or any part of an
integer range that doesn't fit in a byte is ignored") states.  Witnessed
here on the selector `0x41-0x100`, for every attribute and prior table. -/
theorem selector_range_upper_overflow_crashes (a : String) (t : AttrTable) :
    byte_selector 10 a "0x41-0x100" t = Except.error SelErr.indexErr := by
  rfl

/-- C4: Refuted as stated; the code has the bug.  With the decimal base
set by the bare parenthesized prefix, the integer regex is
`([1-9][0-9]*)`, so the tokens `0` and `012` — every character of which
is a valid decimal digit — are rejected with the user-facing error
"problem extracting a decimal integer", contradicting the program's help
text ("every character that appears in every number in the tokens must
be a valid digit in that base"). -/
theorem selector_decimal_base_rejects_zero (a : String) (t : AttrTable) :
    byte_selector 10 a "(0)" t =
      Except.error (SelErr.userErr ("problem extracting a decimal integer from " ++ delimit "0")) ∧
    byte_selector 10 a "(012)" t =
      Except.error (SelErr.userErr ("problem extracting a decimal integer from " ++ delimit "012")) := by
  exact ⟨rfl, rfl⟩

/-- C5: Confirmed.  The selector `[:digit:]` assigns the attribute to
exactly the bytes 0x30–0x39 — for every attribute name and every prior
state of the output table (the class expands through the recursive call
`byte_selector(attribute, "0x(30-39)", output)`). -/
theorem selector_digit_class_exact (a : String) (t : AttrTable) :
    byte_selector 10 a "[:digit:]" t =
      Except.ok (fun j => if 0x30 ≤ j ∧ j ≤ 0x39 then some a else t j) := by
  rw [byte_selector_eq_writeAll]
  rw [show byteSelIdx 10 "[:digit:]" = .ok [48, 49, 50, 51, 52, 53, 54, 55, 56, 57] from rfl]
  simp only [Except.map]
  congr 1
  funext j
  rw [writeAll_apply]
  have hmem : (j ∈ [48, 49, 50, 51, 52, 53, 54, 55, 56, 57]) ↔ (0x30 ≤ j ∧ j ≤ 0x39) := by
    simp only [List.mem_cons, List.not_mem_nil, or_false]
    omega
  simp only [hmem]

/-- C6: Confirmed.  The raw-string selector `r'aeiou'` changes the output
table exactly as `0x(61 65 69 6F 75)` does (the raw string synthesizes
that very hex selector from its distinct code points), and `r##"A"##`
selects exactly byte 0x41. -/
theorem selector_raw_string_equivalences :
    (∀ (a : String) (t : AttrTable),
        byte_selector 10 a "r'aeiou'" t = byte_selector 10 a "0x(61 65 69 6F 75)" t) ∧
    (∀ (a : String) (t : AttrTable),
        byte_selector 10 a "r##\"A\"##" t =
          Except.ok (fun j => if j = 0x41 then some a else t j)) := by
  exact ⟨fun a t => rfl, fun a t => rfl⟩

/-- C8: Confirmed.  Applying the same attribute with the same selector
twice gives the same table as applying it once, and after applying
attribute `a` via `s1` and then attribute `b` via `s2`, every byte
selected by `s2` holds `b` (last-writer-wins), every byte selected only
by `s1` holds `a`, and every byte selected by neither is unchanged. -/
theorem selector_idempotent_last_writer_wins :
    (∀ (fuel : Nat) (a s : String) (t t1 : AttrTable),
        byte_selector fuel a s t = Except.ok t1 →
        byte_selector fuel a s t1 = Except.ok t1) ∧
    (∀ (fuel1 fuel2 : Nat) (a b s1 s2 : String) (t t1 t2 : AttrTable) (l1 l2 : List Nat),
        byteSelIdx fuel1 s1 = Except.ok l1 →
        byteSelIdx fuel2 s2 = Except.ok l2 →
        byte_selector fuel1 a s1 t = Except.ok t1 →
        byte_selector fuel2 b s2 t1 = Except.ok t2 →
        ∀ i : Nat,
          (i ∈ l2 → t2 i = some b) ∧
          (i ∈ l1 → i ∉ l2 → t2 i = some a) ∧
          (i ∉ l1 → i ∉ l2 → t2 i = t i)) := by
  constructor
  · intro fuel a s t t1 hok
    rw [byte_selector_eq_writeAll] at hok ⊢
    cases hidx : byteSelIdx fuel s with
    | error e => rw [hidx] at hok; exact absurd hok (by simp [Except.map])
    | ok l =>
      rw [hidx] at hok
      simp only [Except.map, Except.ok.injEq] at hok
      subst hok
      simp only [Except.map, Except.ok.injEq]
      funext j
      rw [writeAll_apply, writeAll_apply]
      by_cases hj : j ∈ l <;> simp [hj]
  · intro fuel1 fuel2 a b s1 s2 t t1 t2 l1 l2 h1 h2 h3 h4 i
    rw [byte_selector_eq_writeAll, h1] at h3
    rw [byte_selector_eq_writeAll, h2] at h4
    simp only [Except.map, Except.ok.injEq] at h3 h4
    subst h3; subst h4
    rw [writeAll_apply, writeAll_apply]
    refine ⟨fun hi2 => by simp [hi2], fun hi1 hi2 => by simp [hi1, hi2], fun hi1 hi2 => by simp [hi1, hi2]⟩

set_option maxRecDepth 8192

set_option maxHeartbeats 2000000

/-- C7: Confirmed.  For every style in BINARY, OCTAL, DECIMAL, HEX-LOWER,
HEX-UPPER the builder of `initialize4_maps` produces a 256-entry array
whose entry `i` is `i` formatted in that style's base at the fixed width
(8 for binary, 3 for octal and decimal, 2 for hex; the format specs
zero-pad except `{i:>3}` for decimal, which space-pads), and parsing the
entry back in the style's base yields `i`. -/
theorem byte_map_builders_roundtrip :
    ∀ (style : String) (base width : Nat),
      (style, base, width) ∈ [("BINARY", 2, 8), ("OCTAL", 8, 3), ("DECIMAL", 10, 3),
        ("HEX-LOWER", 16, 2), ("HEX-UPPER", 16, 2)] →
      ∃ m, initialize4_byte_map style = Except.ok m ∧ m.length = 256 ∧
        ∀ i, i < 256 → (m.getD i "").length = width ∧ parseBack base (m.getD i "") = some i := by
  intro style base width hmem
  simp only [List.mem_cons, List.not_mem_nil, or_false, Prod.mk.injEq] at hmem
  rcases hmem with ⟨h1, h2, h3⟩ | ⟨h1, h2, h3⟩ | ⟨h1, h2, h3⟩ | ⟨h1, h2, h3⟩ | ⟨h1, h2, h3⟩ <;>
    subst h1 <;> subst h2 <;> subst h3 <;>
    exact ⟨_, rfl, by decide, by decide⟩

/-- Witness for C7 at the HEX-LOWER style. -/
theorem byte_map_builders_roundtrip_witness :
    ∃ m, initialize4_byte_map "HEX-LOWER" = Except.ok m ∧ m.length = 256 ∧
      ∀ i, i < 256 → (m.getD i "").length = 2 ∧ parseBack 16 (m.getD i "") = some i :=
  byte_map_builders_roundtrip "HEX-LOWER" 16 2 (by decide)

/-- C2: Refuted as stated (the spec's scenario is wrong on two counts);
the nearby statement proved by `dump_ab_record_amended` holds.  With the
default configuration (ADDR=HEX-LOWER width "6", BYTE=HEX-LOWER,
TEXT=ASCII, record_length=16) the two-byte input 0x41 0x42 renders the
address as `     0: ` — `"%6x" % 0` space-pads, it does not zero-pad —
and the byte-field padding is 14×3 = 42 spaces
(`(record_len - count) * (digits_per_octet + separator_size)`), not
14×3−1 = 41 as the claim says. -/
theorem dump_ab_record_counterexample :
    run_pipeline (fun _ => true) defaultSettings [0x41, 0x42] =
      Except.ok ("     0: 41 42" ++ String.mk (List.replicate 42 ' ') ++ "  AB\n") ∧
    ("     0: 41 42" ++ String.mk (List.replicate 42 ' ') ++ "  AB\n" : String) ≠
      ("000000: 41 42" ++ String.mk (List.replicate 41 ' ') ++ "  AB\n") := by
  exact ⟨rfl, by decide⟩

/-- C2 (amended): the default configuration (ADDR=HEX-LOWER width "6",
BYTE=HEX-LOWER, TEXT=ASCII, record_length=16) on input 0x41 0x42
produces one record: address field `     0: ` (space-padded to width 6;
zero-padding would need the width string "06"), byte field `41 42`
followed by 14×3 spaces of padding, the two-space BYTE field separator,
text field `AB`, and the record separator. -/
theorem dump_ab_record_amended :
    run_pipeline (fun _ => true) defaultSettings [0x41, 0x42] =
      Except.ok ("     0: " ++ "41 42" ++ String.mk (List.replicate (14 * 3) ' ') ++ "  " ++ "AB" ++ "\n") := by
  rfl

/-- C3: Refuted as stated; the nearby statement proved by
`narrow_empty_field_amended` holds.  Requesting the NARROW layout while
the TEXT field is EMPTY raises no `InternalError`: `initialize1_fields`
silently resets `DUMP_layout` to the default (WIDE) in its EMPTY match
arms, and `initialize3_layout` then normalizes WIDE as a no-op. -/
theorem narrow_empty_text_counterexample :
    ∃ s1, initialize1_fields { defaultSettings with DUMP_layout := "NARROW", TEXT_output := "EMPTY" } =
        Except.ok s1 ∧
      s1.DUMP_layout = "WIDE" ∧
      ∃ s3, initialize3_layout (initialize2_field_widths s1) = Except.ok s3 := by
  exact ⟨_, rfl, rfl, _, rfl⟩

/-- C3 (amended): for any requested layout, when the TEXT field is EMPTY
(and the BYTE field is any non-EMPTY style) or the BYTE field is EMPTY
(and TEXT any non-EMPTY style), `initialize1_fields` silently resets the
layout to the default WIDE and succeeds, and the layout normalizer then
also succeeds — no `InternalError` is raised anywhere on that path; the
normalizer's `InternalError` exists only for layout names that are
neither WIDE nor NARROW. -/
theorem narrow_empty_field_amended :
    ∀ (layoutReq textOut byteOut : String),
      (textOut = "EMPTY" ∧ byteOut ∈ ["BINARY", "DECIMAL", "HEX-LOWER", "HEX-UPPER", "OCTAL", "XXD"]) ∨
      (byteOut = "EMPTY" ∧ textOut ∈ ["ASCII", "CARET", "CARET_ESCAPE", "UNICODE", "XXD"]) →
      ∃ s1, initialize1_fields { defaultSettings with
          DUMP_layout := layoutReq, TEXT_output := textOut, BYTE_output := byteOut } = Except.ok s1 ∧
        s1.DUMP_layout = "WIDE" ∧
        ∃ s3, initialize3_layout (initialize2_field_widths s1) = Except.ok s3 := by
  intro layoutReq textOut byteOut hcase
  rcases hcase with ⟨ht, hb⟩ | ⟨hb, ht⟩
  · subst ht
    simp only [List.mem_cons, List.not_mem_nil, or_false] at hb
    rcases hb with h | h | h | h | h | h <;> subst h <;> exact ⟨_, rfl, rfl, _, rfl⟩
  · subst hb
    simp only [List.mem_cons, List.not_mem_nil, or_false] at ht
    rcases ht with h | h | h | h | h <;> subst h <;> exact ⟨_, rfl, rfl, _, rfl⟩

/-- Witness for C3's amended theorem: NARROW requested with TEXT EMPTY
and BYTE HEX-LOWER. -/
theorem narrow_empty_field_amended_witness :
    ∃ s1, initialize1_fields { defaultSettings with
        DUMP_layout := "NARROW", TEXT_output := "EMPTY", BYTE_output := "HEX-LOWER" } = Except.ok s1 ∧
      s1.DUMP_layout = "WIDE" ∧
      ∃ s3, initialize3_layout (initialize2_field_widths s1) = Except.ok s3 :=
  narrow_empty_field_amended "NARROW" "EMPTY" "HEX-LOWER" (Or.inl ⟨rfl, by decide⟩)

/-- The decorated per-record loop with all decorations empty produces
exactly the plain loop's text, chunk for chunk. -/
theorem complex_loop_with_empty_decorations (recordLen : Nat) (m : List String) (recsep : String) :
    ∀ (fuel : Nat) (input : List Nat),
      dump_field_complex_loop recordLen m "" "" recsep fuel input =
      dump_field_plain_loop recordLen m recsep fuel input := by
  intro fuel
  induction fuel with
  | zero => intro input; rfl
  | succ n ih =>
    intro input
    simp only [dump_field_complex_loop, dump_field_plain_loop]
    by_cases h : (input.take recordLen).length = 0
    · simp only [if_pos h]
    · simp only [if_neg h, ih]
      rfl

/-- C9: Confirmed.  In both fixed-length single-field renderers, whenever
the plain path's selection condition holds (separator, prefix, indent and
suffix all empty, so `complex_fmt` is false), the text the function
writes equals what the decorated path would write on the same input. -/
theorem single_field_plain_path_equivalent :
    (∀ (S : Settings) (m : List String) (input : List Nat),
      S.DUMP_record_length > 0 →
      S.BYTE_separator = "" → S.BYTE_pfx = "" → S.BYTE_indent = "" → S.BYTE_suffix = "" →
      dump_byte_field S (some m) input =
        Except.ok (dump_field_complex_loop S.DUMP_record_length m (S.BYTE_indent ++ S.BYTE_pfx)
          S.BYTE_separator (S.BYTE_suffix ++ S.DUMP_record_separator) (input.length + 1) input)) ∧
    (∀ (S : Settings) (m : List String) (input : List Nat),
      S.DUMP_record_length > 0 →
      S.TEXT_separator = "" → S.TEXT_pfx = "" → S.TEXT_indent = "" → S.TEXT_suffix = "" →
      dump_text_field S (some m) input =
        Except.ok (dump_field_complex_loop S.DUMP_record_length m (S.TEXT_indent ++ S.TEXT_pfx)
          S.TEXT_separator (S.TEXT_suffix ++ S.DUMP_record_separator) (input.length + 1) input)) := by
  constructor
  · intro S m input hrl hsep hpfx hind hsuf
    simp only [dump_byte_field, if_pos hrl, hsep, hpfx, hind, hsuf]
    norm_num
    exact (complex_loop_with_empty_decorations S.DUMP_record_length m
      S.DUMP_record_separator (input.length + 1) input).symm
  · intro S m input hrl hsep hpfx hind hsuf
    simp only [dump_text_field, if_pos hrl, hsep, hpfx, hind, hsuf]
    norm_num
    exact (complex_loop_with_empty_decorations S.DUMP_record_length m
      S.DUMP_record_separator (input.length + 1) input).symm

/-- Witness for C9: BYTE-only and TEXT-only dumps of the bytes 0x41 0x42
with every decoration string empty. -/
theorem single_field_plain_path_equivalent_witness :
    dump_byte_field { defaultSettings with BYTE_separator := "" }
        (some (ASCII_TEXT_MAP)) [0x41, 0x42] =
      Except.ok (dump_field_complex_loop 16 ASCII_TEXT_MAP ("" ++ "") "" ("" ++ "\n") 3 [0x41, 0x42]) ∧
    dump_text_field defaultSettings (some (ASCII_TEXT_MAP)) [0x41, 0x42] =
      Except.ok (dump_field_complex_loop 16 ASCII_TEXT_MAP ("" ++ "") "" ("" ++ "\n") 3 [0x41, 0x42]) := by
  constructor
  · exact single_field_plain_path_equivalent.1 { defaultSettings with BYTE_separator := "" }
      ASCII_TEXT_MAP [0x41, 0x42] (by decide) rfl rfl rfl rfl
  · exact single_field_plain_path_equivalent.2 defaultSettings
      ASCII_TEXT_MAP [0x41, 0x42] (by decide) rfl rfl rfl rfl

/-- C10: Confirmed.  On a source that yields zero bytes, all three
streaming modes write nothing at all — no address, no prefixes, no
padding, no record separator. -/
theorem zero_byte_input_writes_nothing :
    (∀ (S : Settings) (bm tm : Option (List String)), S.DUMP_record_length > 0 →
      dump_all S bm tm [] = Except.ok "") ∧
    (∀ (S : Settings) (bm tm : Option (List String)), S.DUMP_record_length = 0 →
      dump_all_single_record S bm tm [] = Except.ok "") ∧
    (∀ (S : Settings) (m : List String), S.DUMP_record_length > 0 →
      dump_byte_field S (some m) [] = Except.ok "") ∧
    (∀ (S : Settings) (m : List String), S.DUMP_record_length > 0 →
      dump_text_field S (some m) [] = Except.ok "") := by
  refine ⟨?_, ?_, ?_, ?_⟩
  · intro S bm tm hrl
    simp [dump_all, if_pos hrl, dump_all_loop]
  · intro S bm tm hrl
    simp [dump_all_single_record, if_pos hrl, single_record_chunks]
  · intro S m hrl
    simp only [dump_byte_field, if_pos hrl]
    by_cases hc : (S.BYTE_separator.length > 0 || S.BYTE_pfx.length > 0 ||
        S.BYTE_indent.length > 0 || S.BYTE_suffix.length > 0) = true <;>
      simp [hc, dump_field_complex_loop, dump_field_plain_loop]
  · intro S m hrl
    simp only [dump_text_field, if_pos hrl]
    by_cases hc : (S.TEXT_separator.length > 0 || S.TEXT_pfx.length > 0 ||
        S.TEXT_indent.length > 0 || S.TEXT_suffix.length > 0) = true <;>
      simp [hc, dump_field_complex_loop, dump_field_plain_loop]

/-- Witness for C10 at the default settings (record length 16, and 0 for
the single-record mode). -/
theorem zero_byte_input_writes_nothing_witness :
    dump_all defaultSettings (some ASCII_TEXT_MAP) (some ASCII_TEXT_MAP) [] = Except.ok "" ∧
    dump_all_single_record { defaultSettings with DUMP_record_length := 0 }
      (some ASCII_TEXT_MAP) (some ASCII_TEXT_MAP) [] = Except.ok "" ∧
    dump_byte_field defaultSettings (some ASCII_TEXT_MAP) [] = Except.ok "" ∧
    dump_text_field defaultSettings (some ASCII_TEXT_MAP) [] = Except.ok "" := by
  refine ⟨?_, ?_, ?_, ?_⟩
  · exact zero_byte_input_writes_nothing.1 defaultSettings _ _ (by decide)
  · exact zero_byte_input_writes_nothing.2.1 _ _ _ rfl
  · exact zero_byte_input_writes_nothing.2.2.1 defaultSettings _ (by decide)
  · exact zero_byte_input_writes_nothing.2.2.2 defaultSettings _ (by decide)

/-- Witness for C8 at concrete inputs: `A` applied via `0x41-0x43`, then
`B` applied via `0x42-0x44`; byte 0x42 (in the overlap) holds `B`, byte
0x41 holds `A`, byte 0x40 is untouched, and re-applying `A` via
`0x41-0x43` to its own result is the identity. -/
theorem selector_idempotent_last_writer_wins_witness :
    (writeAll "B" [66, 67, 68] (writeAll "A" [65, 66, 67] freshTable)) 66 = some "B" ∧
    (writeAll "B" [66, 67, 68] (writeAll "A" [65, 66, 67] freshTable)) 65 = some "A" ∧
    (writeAll "B" [66, 67, 68] (writeAll "A" [65, 66, 67] freshTable)) 64 = none ∧
    byte_selector 10 "A" "0x41-0x43" (writeAll "A" [65, 66, 67] freshTable) =
      Except.ok (writeAll "A" [65, 66, 67] freshTable) := by
  have H := selector_idempotent_last_writer_wins
  have H2 := H.2 10 10 "A" "B" "0x41-0x43" "0x42-0x44" freshTable
      (writeAll "A" [65, 66, 67] freshTable)
      (writeAll "B" [66, 67, 68] (writeAll "A" [65, 66, 67] freshTable))
      [65, 66, 67] [66, 67, 68] rfl rfl rfl rfl
  refine ⟨(H2 66).1 (by decide), (H2 65).2.1 (by decide) (by decide),
          (H2 64).2.2 (by decide) (by decide), ?_⟩
  exact H.1 10 "A" "0x41-0x43" freshTable (writeAll "A" [65, 66, 67] freshTable) rfl

end ByteDump
